import Mathlib

/-!
Verification development for the emailcat backend.

The definitions below are a shallow embedding of the Python handlers in
`backend/app/api/v1/email.py`, `backend/app/api/v1/auth.py`,
`backend/app/api/v1/emails.py`, `backend/app/core/auth.py` and
`backend/app/services/email_service.py`.  External network interactions
(the Google token exchange, the Auth0 token exchange and userinfo call,
the Gmail REST API) are modelled as oracle parameters; every branch the
handlers take on the oracle's outcome is translated from the source.
-/

namespace EmailCat

/-- Python truthiness of an optional string: `None` and the empty string
are falsy, every other string is truthy (as in `if not state: ...`). -/
def pyTruthy : Option String → Bool
  | none => false
  | some s => !s.isEmpty

/-- The request's cookie jar, as name/value pairs
(`request.cookies`). -/
abbrev Cookies := List (String × String)

/-- `request.cookies.get(k)`: first value bound to `k`, if any. -/
def Cookies.get : Cookies → String → Option String
  | [], _ => none
  | (k', v) :: rest, k => if k' = k then some v else Cookies.get rest k

/-- Removal of a cookie from the jar (the client's view after a
`delete_cookie` response directive takes effect). -/
def Cookies.deleteKey : Cookies → String → Cookies
  | [], _ => []
  | (k', v) :: rest, k =>
    if k' = k then Cookies.deleteKey rest k else (k', v) :: Cookies.deleteKey rest k

/-- Environment-sourced configuration (`backend/app/core/config.py`,
class `Settings`); only the fields the embedded handlers read. -/
structure Settings where
  AUTH0_DOMAIN : String
  AUTH0_CLIENT_ID : String
  AUTH0_CLIENT_SECRET : String
  GOOGLE_CLIENT_ID : String
  GOOGLE_CLIENT_SECRET : String
  MICROSOFT_CLIENT_ID : String
  MICROSOFT_CLIENT_SECRET : String
deriving Repr, DecidableEq

/-! ## Mail-link handshake (`backend/app/api/v1/email.py`) -/

/-- The subset of `flow.credentials` that `gmail_callback` reads after a
successful `fetch_token` (lines 262-268). -/
structure GoogleCreds where
  token : String
  refresh_token : Option String
  token_uri : String
  client_id : String
  scopes : List String
deriving Repr, DecidableEq

/-- Body of a `gmail_callback` response: a JSON error object
(`{"error": ..., "detail": ...}`) or the success HTML page that embeds
the credential bundle. -/
inductive CbBody
  | jsonError (err : String) (detail : Option String)
  | htmlPage (creds : GoogleCreds)
deriving Repr, DecidableEq

/-- Observable outcome of `gmail_callback`: HTTP status, body, which of
the two handshake cookies the response deletes, and whether the handler
reached the `flow.fetch_token` call (instrumentation for the
"token exchange is never reached" properties). -/
structure CbResponse where
  status : Nat
  body : CbBody
  deletesOauthState : Bool
  deletesAuth0Token : Bool
  reachedExchange : Bool
deriving Repr, DecidableEq

/-- `gmail_callback` (`email.py` lines 205-435).  `fetch_token` models
`flow.fetch_token(code=code)`: `.ok` is a successful exchange yielding
`flow.credentials`, `.error` is a raised exception (caught by the
handler's `except` clause, line 427). -/
def gmail_callback (cookies : Cookies) (code : String)
    (state error : Option String)
    (fetch_token : String → Except String GoogleCreds) : CbResponse :=
  if pyTruthy error then
    { status := 400, body := .jsonError "OAuth error" error,
      deletesOauthState := false, deletesAuth0Token := false,
      reachedExchange := false }
  else if !pyTruthy state || !pyTruthy (cookies.get "oauth_state") then
    { status := 400, body := .jsonError "Missing state parameter" none,
      deletesOauthState := false, deletesAuth0Token := false,
      reachedExchange := false }
  else if state ≠ cookies.get "oauth_state" then
    { status := 400, body := .jsonError "Invalid state parameter" none,
      deletesOauthState := false, deletesAuth0Token := false,
      reachedExchange := false }
  else if !pyTruthy (cookies.get "auth0_token") then
    { status := 401, body := .jsonError "No Auth0 token found" none,
      deletesOauthState := false, deletesAuth0Token := false,
      reachedExchange := false }
  else
    match fetch_token code with
    | .ok creds =>
      { status := 200, body := .htmlPage creds,
        deletesOauthState := true, deletesAuth0Token := true,
        reachedExchange := true }
    | .error e =>
      { status := 400,
        body := .jsonError "Failed to complete Gmail authentication" (some e),
        deletesOauthState := false, deletesAuth0Token := false,
        reachedExchange := true }

/-- Python `a.replace("Bearer ", "")` on the character list: removes
every non-overlapping occurrence of `"Bearer "`, scanning left to
right (Python `str.replace` replaces all occurrences, not only a
leading one). -/
def removeBearerOccurrences : List Char → List Char
  | 'B' :: 'e' :: 'a' :: 'r' :: 'e' :: 'r' :: ' ' :: rest => removeBearerOccurrences rest
  | c :: rest => c :: removeBearerOccurrences rest
  | [] => []

/-- Python `a.replace("Bearer ", "")`. -/
def pyReplaceBearer (a : String) : String := ⟨removeBearerOccurrences a.data⟩

/-- Python `a.startswith("Bearer ")`, stated on the character list. -/
def startsWithBearer (a : String) : Bool := "Bearer ".data.isPrefixOf a.data

/-- Token-source selection of `gmail_auth` (`email.py` lines 63-72):
Authorization header (with `.replace("Bearer ", "")` applied when it
starts with `"Bearer "`), then the `token` query parameter, then the
`access_token` query parameter, then the `auth0_token` cookie. -/
def select_auth_token (authorization token access_token : Option String)
    (cookies : Cookies) : Option String :=
  if pyTruthy authorization then
    authorization.map
      (fun a => if startsWithBearer a then pyReplaceBearer a else a)
  else if pyTruthy token then token
  else if pyTruthy access_token then access_token
  else if pyTruthy (cookies.get "auth0_token") then cookies.get "auth0_token"
  else none

/-- Observable outcome of `gmail_auth`: HTTP status, whether the
response is the redirect to the mail provider's consent screen, and the
values of the two 600-second cookies it sets (both `none` on the error
path). -/
structure GmailAuthResponse where
  status : Nat
  redirected : Bool
  setOauthState : Option String
  setAuth0Token : Option String
deriving Repr, DecidableEq

/-- `gmail_auth` (`email.py` lines 53-126).  `state` is the value of
`secrets.token_urlsafe(32)`, passed in as a parameter since it is drawn
at random.  The redirect carries default status 307 and sets the
`oauth_state` and `auth0_token` cookies. -/
def gmail_auth (authorization token access_token : Option String)
    (cookies : Cookies) (state : String) : GmailAuthResponse :=
  let auth_token := select_auth_token authorization token access_token cookies
  if !pyTruthy auth_token then
    { status := 401, redirected := false,
      setOauthState := none, setAuth0Token := none }
  else
    { status := 307, redirected := true,
      setOauthState := some state, setAuth0Token := auth_token }

/-- The nested `credentials` dict of the `POST /gmail/messages` body
(`email.py` line 142, produced by the callback page at lines 262-268). -/
structure GmailCredsDict where
  access_token : Option String
  refresh_token : Option String
  token_uri : Option String
  client_id : Option String
  scopes : Option (List String)
deriving Repr, DecidableEq

/-- The JSON body of `POST /gmail/messages`: a dict that may hold a
`credentials` key.  A missing body, a JSON `null` body and an empty dict
all reach the handler as a falsy `credentials` argument and are modelled
as the outer `none`. -/
structure MessagesBody where
  credentials : Option GmailCredsDict
deriving Repr, DecidableEq

/-- One entry of the `messages` array built by `list_messages`
(`email.py` lines 177-184); `sender` stands for the JSON key `from`. -/
structure MessageSummary where
  id : String
  subject : String
  sender : String
  date : String
  snippet : String
  labelIds : List String
deriving Repr, DecidableEq

/-- The success payload of `list_messages` (`email.py` lines 186-190). -/
structure MessagesResult where
  messages : List MessageSummary
  nextPageToken : Option String
  resultSizeEstimate : Option Nat
deriving Repr, DecidableEq

/-- A Python exception as the `list_messages` `try` block can raise one:
a FastAPI `HTTPException`, a googleapiclient `HttpError`, or any other
exception. -/
inductive PyExc
  | httpException (status : Nat) (detail : String)
  | httpError (msg : String)
  | otherExc (msg : String)
deriving Repr, DecidableEq

/-- Python `str(e)` for the exceptions of `PyExc`; Starlette's
`HTTPException.__str__` renders `"{status_code}: {detail}"`. -/
def strOfExc : PyExc → String
  | .httpException st d => toString st ++ ": " ++ d
  | .httpError m => m
  | .otherExc m => m

/-- Observable outcome of `list_messages`: the final HTTP status, the
`detail` of the raised `HTTPException` when the request fails, the
success payload otherwise, and whether the Gmail service was invoked. -/
structure ListMessagesResult where
  status : Nat
  detail : Option String
  payload : Option MessagesResult
  providerCalled : Bool
deriving Repr, DecidableEq

/-- `list_messages` (`email.py` lines 128-203).  `gmail_api` is the
oracle for `get_gmail_service` plus the Gmail REST calls of lines
149-184 (everything after the credential checks).  The `try` block's
outcome is then filtered through the handler's two `except` clauses:
`HttpError` becomes a 400, and every other exception — including the
`HTTPException`s the block itself raises — becomes a 500 with detail
`"Failed to list Gmail messages: " + str(e)`. -/
def list_messages (body : Option MessagesBody)
    (gmail_api : GmailCredsDict → Except PyExc MessagesResult) :
    ListMessagesResult :=
  let run : Except PyExc MessagesResult × Bool :=
    match body with
    | none => (.error (.httpException 401 "Gmail credentials not provided"), false)
    | some b =>
      match b.credentials with
      | none =>
          (.error (.httpException 401 "Gmail credentials not found in request"), false)
      | some gc => (gmail_api gc, true)
  match run with
  | (.ok r, called) =>
      { status := 200, detail := none, payload := some r, providerCalled := called }
  | (.error (.httpError m), called) =>
      { status := 400, detail := some ("Gmail API error: " ++ m),
        payload := none, providerCalled := called }
  | (.error e, called) =>
      { status := 500, detail := some ("Failed to list Gmail messages: " ++ strOfExc e),
        payload := none, providerCalled := called }

/-! ## Identity-provider handshake (`backend/app/api/v1/auth.py`) -/

/-- A cookie a response sets, with the attributes `login` passes
(`auth.py` lines 33-38). -/
structure SetCookie where
  value : String
  max_age : Nat
  httponly : Bool
deriving Repr, DecidableEq

/-- Observable outcome of `login`: redirect status, `Location` target,
and the `redirect_after_login` cookie the response sets, if any. -/
structure LoginResponse where
  status : Nat
  location : String
  redirectCookie : Option SetCookie
deriving Repr, DecidableEq

/-- The Auth0 authorize URL `login` builds (`auth.py` lines 32 and
42; both branches interpolate the same string). -/
def auth0AuthorizeUrl (settings : Settings) : String :=
  "https://" ++ settings.AUTH0_DOMAIN ++ "/authorize?response_type=code&client_id="
    ++ settings.AUTH0_CLIENT_ID
    ++ "&redirect_uri=http://localhost:8000/api/v1/auth/callback&scope=openid profile email"

/-- `login` (`auth.py` lines 23-43): redirect to Auth0, storing a truthy
`redirect_after_login` in a 600-second HTTP-only cookie. -/
def login (settings : Settings) (redirect_after_login : Option String) :
    LoginResponse :=
  if pyTruthy redirect_after_login then
    { status := 307, location := auth0AuthorizeUrl settings,
      redirectCookie := some
        { value := redirect_after_login.getD "", max_age := 600, httponly := true } }
  else
    { status := 307, location := auth0AuthorizeUrl settings, redirectCookie := none }

/-- The token payload Auth0 returns on a successful code exchange; the
handler reads only `access_token` (`auth.py` line 79). -/
structure TokenData where
  access_token : String
deriving Repr, DecidableEq

/-- Outcome of the `httpx` POST to Auth0's token endpoint: an HTTP
response with a status code and parsed JSON, or a transport
exception. -/
inductive UpstreamResult
  | resp (status : Nat) (token_data : TokenData)
  | exc (msg : String)
deriving Repr, DecidableEq

/-- Body of an `auth_callback` response: a redirect, the raw token
payload, or the `detail` of a raised `HTTPException`. -/
inductive AuthCbBody
  | redirect (url : String)
  | payload (td : TokenData)
  | errorDetail (detail : String)
deriving Repr, DecidableEq

/-- Observable outcome of `auth_callback`: status, body, and whether the
response deletes the `redirect_after_login` cookie. -/
structure AuthCbResponse where
  status : Nat
  body : AuthCbBody
  deletesRedirectCookie : Bool
deriving Repr, DecidableEq

/-- `auth_callback` (`auth.py` lines 45-91).  A non-200 provider status
raises `HTTPException(400, "Failed to exchange code for token")` inside
the `try` block; the `except Exception` clause catches it and re-raises
a 400 whose detail wraps `str(e)`.  A transport exception takes the same
`except` clause directly. -/
def auth_callback (cookies : Cookies) (code : String)
    (exchange : String → UpstreamResult) : AuthCbResponse :=
  match exchange code with
  | .exc m =>
      { status := 400,
        body := .errorDetail ("Failed to authenticate with Auth0: " ++ m),
        deletesRedirectCookie := false }
  | .resp st td =>
    if st ≠ 200 then
      { status := 400,
        body := .errorDetail ("Failed to authenticate with Auth0: "
          ++ strOfExc (.httpException 400 "Failed to exchange code for token")),
        deletesRedirectCookie := false }
    else if pyTruthy (cookies.get "redirect_after_login") then
      { status := 307,
        body := .redirect ((cookies.get "redirect_after_login").getD ""
          ++ "?access_token=" ++ td.access_token),
        deletesRedirectCookie := true }
    else
      { status := 200, body := .payload td, deletesRedirectCookie := false }

/-! ## Token verifier (`backend/app/core/auth.py`) -/

/-- The identity record `get_current_user` produces (the mock user, or
Auth0's userinfo JSON). -/
structure UserIdentity where
  sub : String
  email : String
  name : String
deriving Repr, DecidableEq

/-- Outcome of the `httpx` GET to Auth0's userinfo endpoint. -/
inductive UserinfoResult
  | resp (status : Nat) (user : UserIdentity)
  | exc (msg : String)
deriving Repr, DecidableEq

/-- A raised FastAPI `HTTPException`, reduced to status and detail. -/
structure HTTPExc where
  status : Nat
  detail : String
deriving Repr, DecidableEq

/-- Observable outcome of `get_current_user`: the identity or the raised
`HTTPException`, plus whether the userinfo endpoint was contacted. -/
structure CurrentUserResult where
  result : Except HTTPExc UserIdentity
  contactedProvider : Bool
deriving Repr

/-- `get_current_user` (`core/auth.py` lines 15-58).  With the
placeholder domain `"your-tenant.auth0.com"` it returns the fixed mock
identity without any network call; otherwise it calls userinfo, and a
non-200 status or any exception surfaces as a 401
`"Could not validate credentials"` (the inner raise is re-wrapped by the
`except Exception` clause into the same 401). -/
def get_current_user (settings : Settings) (token : String)
    (userinfo : String → UserinfoResult) : CurrentUserResult :=
  if settings.AUTH0_DOMAIN = "your-tenant.auth0.com" then
    { result := .ok
        { sub := "mock-user-id", email := "test@example.com", name := "Test User" },
      contactedProvider := false }
  else
    match userinfo token with
    | .resp st u =>
      if st ≠ 200 then
        { result := .error { status := 401, detail := "Could not validate credentials" },
          contactedProvider := true }
      else
        { result := .ok u, contactedProvider := true }
    | .exc _ =>
        { result := .error { status := 401, detail := "Could not validate credentials" },
          contactedProvider := true }

/-! ## Mail service facade (`backend/app/services/email_service.py` and
`backend/app/api/v1/emails.py`) -/

/-- The two concrete `EmailService` bindings, each holding the client
id/secret its constructor receives. -/
inductive EmailServiceImpl
  | gmailSvc (client_id client_secret : String)
  | outlookSvc (client_id client_secret : String)
deriving Repr, DecidableEq

/-- One entry of the stubbed unread-email list
(`email_service.py` lines 27 and 44); `sender` stands for the JSON key
`from`. -/
structure EmailSummary where
  id : String
  subject : String
  sender : String
deriving Repr, DecidableEq

/-- `get_unread_emails` of both stub services (`email_service.py`
lines 25-27 and 42-44). -/
def EmailServiceImpl.get_unread_emails (s : EmailServiceImpl)
    (user_id : String) : List EmailSummary :=
  match s with
  | .gmailSvc _ _ => [{ id := "1", subject := "Test Email", sender := "test@example.com" }]
  | .outlookSvc _ _ => [{ id := "1", subject := "Test Email", sender := "test@example.com" }]

/-- `send_email` of both stub services (`email_service.py` lines 29-31
and 46-48): always `True`. -/
def EmailServiceImpl.send_email (s : EmailServiceImpl)
    (user_id «to» subject body : String) : Bool :=
  match s with
  | .gmailSvc _ _ => true
  | .outlookSvc _ _ => true

/-- `mark_as_read` of both stub services (`email_service.py` lines 33-35
and 50-52): always `True`. -/
def EmailServiceImpl.mark_as_read (s : EmailServiceImpl)
    (user_id email_id : String) : Bool :=
  match s with
  | .gmailSvc _ _ => true
  | .outlookSvc _ _ => true

/-- `get_email_service` (`emails.py` lines 15-21): provider dispatch,
raising `HTTPException(400, "Unsupported email provider")` on any name
other than `"gmail"` and `"outlook"`. -/
def get_email_service (settings : Settings) (provider : String) :
    Except HTTPExc EmailServiceImpl :=
  if provider = "gmail" then
    .ok (.gmailSvc settings.GOOGLE_CLIENT_ID settings.GOOGLE_CLIENT_SECRET)
  else if provider = "outlook" then
    .ok (.outlookSvc settings.MICROSOFT_CLIENT_ID settings.MICROSOFT_CLIENT_SECRET)
  else
    .error { status := 400, detail := "Unsupported email provider" }

/-- The `POST /email/send` request body (`emails.py` class
`EmailRequest`). -/
structure EmailRequest where
  «to» : String
  subject : String
  body : String
deriving Repr, DecidableEq

/-- Outcome of one of the bearer-authenticated email endpoints: the
successful value or the raised `HTTPException`, plus whether any service
operation was invoked. -/
structure HandlerResult (α : Type) where
  result : Except HTTPExc α
  serviceOpInvoked : Bool
deriving Repr

/-- `get_unread_emails` endpoint (`emails.py` lines 23-30), after the
bearer dependency has produced `current_user`. -/
def get_unread_emails_endpoint (settings : Settings) (provider : String)
    (current_user : UserIdentity) : HandlerResult (List EmailSummary) :=
  match get_email_service settings provider with
  | .error e => { result := .error e, serviceOpInvoked := false }
  | .ok service =>
      { result := .ok (service.get_unread_emails current_user.sub),
        serviceOpInvoked := true }

/-- `send_email` endpoint (`emails.py` lines 32-48), after the bearer
dependency has produced `current_user`. -/
def send_email_endpoint (settings : Settings) (provider : String)
    (email_data : EmailRequest) (current_user : UserIdentity) :
    HandlerResult String :=
  match get_email_service settings provider with
  | .error e => { result := .error e, serviceOpInvoked := false }
  | .ok service =>
    let success := service.send_email current_user.sub
      email_data.«to» email_data.subject email_data.body
    if !success then
      { result := .error { status := 500, detail := "Failed to send email" },
        serviceOpInvoked := true }
    else
      { result := .ok "Email sent successfully", serviceOpInvoked := true }

/-- `mark_email_as_read` endpoint (`emails.py` lines 50-61), after the
bearer dependency has produced `current_user`. -/
def mark_email_as_read_endpoint (settings : Settings) (email_id : String)
    (provider : String) (current_user : UserIdentity) : HandlerResult String :=
  match get_email_service settings provider with
  | .error e => { result := .error e, serviceOpInvoked := false }
  | .ok service =>
    let success := service.mark_as_read current_user.sub email_id
    if !success then
      { result := .error { status := 500, detail := "Failed to mark email as read" },
        serviceOpInvoked := true }
    else
      { result := .ok "Email marked as read successfully", serviceOpInvoked := true }

/-! ## Shared helper lemmas and concrete instances -/

/-- An optional string is truthy exactly when it is a non-empty string. -/
theorem pyTruthy_iff (o : Option String) :
    pyTruthy o = true ↔ ∃ s : String, o = some s ∧ s ≠ "" := by
  cases o with
  | none => simp [pyTruthy]
  | some s =>
    simp only [pyTruthy, Bool.not_eq_true', Option.some.injEq]
    constructor
    · intro h
      refine ⟨s, rfl, fun he => ?_⟩
      rw [he] at h
      exact absurd h (by decide)
    · rintro ⟨s', hs', hne⟩
      subst hs'
      cases h : s.isEmpty with
      | false => rfl
      | true => exact absurd ((String.isEmpty_iff s).mp (by rw [h])) hne

/-- A concrete credential bundle, used to instantiate the exchange
oracle in concrete evaluations. -/
def sampleCreds : GoogleCreds :=
  { token := "ya29.sample", refresh_token := some "1//refresh.sample",
    token_uri := "https://oauth2.googleapis.com/token",
    client_id := "client-id.sample",
    scopes := ["https://www.googleapis.com/auth/gmail.readonly"] }

/-- An exchange oracle whose `fetch_token` always succeeds. -/
def fetchOk : String → Except String GoogleCreds := fun _ => .ok sampleCreds

/-- An exchange oracle whose `fetch_token` always raises. -/
def fetchFail : String → Except String GoogleCreds := fun _ => .error "invalid_grant"

/-! ## Claims about `gmail_callback` -/

/-- Claim C1 is false on the code: on the provider-reported-error
outcome (here `error=access_denied`, with a matching state and an
identity cookie present), the `gmail_callback` response deletes neither
the `oauth_state` cookie nor the `auth0_token` cookie. -/
theorem gmail_callback_error_outcome_keeps_cookies :
    (gmail_callback [("oauth_state", "s1"), ("auth0_token", "t1")] "code0"
        (some "s1") (some "access_denied") fetchOk).deletesOauthState = false
    ∧ (gmail_callback [("oauth_state", "s1"), ("auth0_token", "t1")] "code0"
        (some "s1") (some "access_denied") fetchOk).deletesAuth0Token = false :=
  ⟨rfl, rfl⟩

/-- Claim C1, amended: the `gmail_callback` response deletes the
`oauth_state` and `auth0_token` cookies exactly on the success outcome
(status 200, the confirmation page); on every failure outcome —
provider-reported error, missing or mismatched state, missing identity
cookie, token-exchange failure — it deletes neither: each cookie
individually is deleted iff the outcome is success. -/
theorem gmail_callback_deletes_cookies_iff_success (cookies : Cookies)
    (code : String) (state error : Option String)
    (fetch_token : String → Except String GoogleCreds) :
    ((gmail_callback cookies code state error fetch_token).deletesOauthState = true
      ↔ (gmail_callback cookies code state error fetch_token).status = 200)
    ∧ ((gmail_callback cookies code state error fetch_token).deletesAuth0Token = true
      ↔ (gmail_callback cookies code state error fetch_token).status = 200) := by
  unfold gmail_callback
  repeat' split
  all_goals simp

/-- Claim C3: with no provider-reported error, `gmail_callback` reaches
the token exchange only when the callback `state` and the `oauth_state`
cookie are both present (as non-empty strings) and equal; when that
fails, the response is a 400 state error and the exchange is never
reached. -/
theorem gmail_callback_state_gate (cookies : Cookies) (code : String)
    (state error : Option String)
    (fetch_token : String → Except String GoogleCreds)
    (herr : pyTruthy error = false) :
    ((gmail_callback cookies code state error fetch_token).reachedExchange = true →
       ∃ s : String, s ≠ "" ∧ state = some s ∧ cookies.get "oauth_state" = some s)
    ∧ ((¬ ∃ s : String, s ≠ "" ∧ state = some s ∧ cookies.get "oauth_state" = some s) →
       (gmail_callback cookies code state error fetch_token).status = 400
       ∧ (gmail_callback cookies code state error fetch_token).reachedExchange = false
       ∧ ((gmail_callback cookies code state error fetch_token).body
            = CbBody.jsonError "Missing state parameter" none
          ∨ (gmail_callback cookies code state error fetch_token).body
            = CbBody.jsonError "Invalid state parameter" none)) := by
  unfold gmail_callback
  simp only [herr, Bool.false_eq_true, if_false]
  by_cases h1 : (!pyTruthy state || !pyTruthy (cookies.get "oauth_state")) = true
  · rw [if_pos h1]
    refine ⟨fun h => by simp at h, fun _ => ⟨rfl, rfl, Or.inl rfl⟩⟩
  · rw [if_neg h1]
    have hboth : pyTruthy state = true ∧ pyTruthy (cookies.get "oauth_state") = true := by
      constructor <;>
      · cases hs : pyTruthy state <;> cases hc : pyTruthy (cookies.get "oauth_state") <;>
          simp [hs, hc] at h1 ⊢
    obtain ⟨s, hst, hsne⟩ := (pyTruthy_iff state).mp hboth.1
    by_cases h2 : state ≠ cookies.get "oauth_state"
    · rw [if_pos h2]
      refine ⟨fun h => by simp at h, fun _ => ⟨rfl, rfl, Or.inr rfl⟩⟩
    · rw [if_neg h2]
      rw [not_not] at h2
      have hcs : cookies.get "oauth_state" = some s := by rw [← h2, hst]
      have hex : ∃ s : String, s ≠ "" ∧ state = some s ∧ cookies.get "oauth_state" = some s :=
        ⟨s, hsne, hst, hcs⟩
      refine ⟨fun _ => hex, fun hne => absurd hex hne⟩

/-- Concrete instance of `gmail_callback_state_gate`: callback state
`"x"` with no `oauth_state` cookie yields a 400 and never reaches the
exchange. -/
theorem gmail_callback_state_gate_instance :
    (gmail_callback [] "code0" (some "x") none fetchOk).status = 400
    ∧ (gmail_callback [] "code0" (some "x") none fetchOk).reachedExchange = false := by
  have h := gmail_callback_state_gate [] "code0" (some "x") none fetchOk rfl
  have h2 := h.2 (by rintro ⟨s, _, _, hcs⟩; simp [Cookies.get] at hcs)
  exact ⟨h2.1, h2.2.1⟩

/-- A truthy optional string is exactly a `some` of a non-empty string. -/
theorem pyTruthy_some_iff (a : String) : pyTruthy (some a) = true ↔ a ≠ "" := by
  rw [pyTruthy_iff]
  constructor
  · rintro ⟨s, hs, hne⟩
    injection hs with h
    subst h
    exact hne
  · intro h
    exact ⟨a, rfl, h⟩

/-- A header that starts with `"Bearer "` is non-empty. -/
theorem startsWithBearer_ne_empty (a : String) (h : startsWithBearer a = true) :
    a ≠ "" := by
  intro he
  rw [he] at h
  exact absurd h (by decide)

/-! ## Claims about `gmail_auth` and `list_messages` -/

/-- Claim C4: `gmail_auth` takes the identity token from the
Authorization header first, then the `token` query parameter, then the
`access_token` query parameter, then the `auth0_token` cookie (each
later source is consulted only when every earlier one is falsy, and a
truthy header makes the selection independent of the later sources);
with all four sources absent the endpoint answers 401 and does not
redirect to the mail provider. -/
theorem gmail_auth_token_precedence (authorization token access_token : Option String)
    (cookies : Cookies) (state : String) :
    (pyTruthy authorization = true →
      select_auth_token authorization token access_token cookies
        = select_auth_token authorization none none [])
    ∧ (pyTruthy authorization = false → pyTruthy token = true →
      select_auth_token authorization token access_token cookies = token)
    ∧ (pyTruthy authorization = false → pyTruthy token = false →
        pyTruthy access_token = true →
      select_auth_token authorization token access_token cookies = access_token)
    ∧ (pyTruthy authorization = false → pyTruthy token = false →
        pyTruthy access_token = false →
        pyTruthy (cookies.get "auth0_token") = true →
      select_auth_token authorization token access_token cookies
        = cookies.get "auth0_token")
    ∧ (pyTruthy authorization = false → pyTruthy token = false →
        pyTruthy access_token = false →
        pyTruthy (cookies.get "auth0_token") = false →
      select_auth_token authorization token access_token cookies = none
      ∧ (gmail_auth authorization token access_token cookies state).status = 401
      ∧ (gmail_auth authorization token access_token cookies state).redirected = false) := by
  refine ⟨?_, ?_, ?_, ?_, ?_⟩
  · intro h1
    unfold select_auth_token
    rw [h1]
    rfl
  · intro h1 h2
    unfold select_auth_token
    rw [h1, h2]
    simp
  · intro h1 h2 h3
    unfold select_auth_token
    rw [h1, h2, h3]
    simp
  · intro h1 h2 h3 h4
    unfold select_auth_token
    rw [h1, h2, h3, h4]
    simp
  · intro h1 h2 h3 h4
    have hsel : select_auth_token authorization token access_token cookies = none := by
      unfold select_auth_token
      rw [h1, h2, h3, h4]
      simp
    refine ⟨hsel, ?_, ?_⟩ <;>
    · unfold gmail_auth
      rw [hsel]
      rfl

/-- Concrete instance of `gmail_auth_token_precedence`: with no header,
no query parameters and no cookie, `gmail_auth` answers 401 without
redirecting. -/
theorem gmail_auth_token_precedence_instance :
    (gmail_auth none none none [] "state0").status = 401
    ∧ (gmail_auth none none none [] "state0").redirected = false := by
  have h := (gmail_auth_token_precedence none none none [] "state0").2.2.2.2
    rfl rfl rfl rfl
  exact ⟨h.2.1, h.2.2⟩

/-- Claim C9 is false as stated: for the header
`"Bearer Bearer tok1"`, the code removes every occurrence of
`"Bearer "` (Python `str.replace`), yielding `"tok1"`, whereas
stripping only the leading `"Bearer "` prefix would yield
`"Bearer tok1"`. -/
theorem select_auth_token_not_prefix_strip :
    select_auth_token (some "Bearer Bearer tok1") none none []
      ≠ some (String.mk ("Bearer Bearer tok1".data.drop "Bearer ".data.length))
    ∧ String.mk ("Bearer Bearer tok1".data.drop "Bearer ".data.length) = "Bearer tok1"
    ∧ select_auth_token (some "Bearer Bearer tok1") none none [] = some "tok1" := by
  refine ⟨by decide, by decide, by decide⟩

/-- Claim C9, amended: when the Authorization header starts with
`"Bearer "`, every occurrence of the substring `"Bearer "` is removed
(Python `str.replace` semantics), not only the prefix; a header not
starting with `"Bearer "` is used verbatim; and an empty-string value in
any source (header, `token`, `access_token`, cookie) is treated as
absent, falling through to the next source in the precedence order. -/
theorem select_auth_token_bearer_and_empty (token access_token : Option String)
    (cookies : Cookies) :
    (∀ a : String, startsWithBearer a = true →
      select_auth_token (some a) token access_token cookies
        = some (pyReplaceBearer a))
    ∧ (∀ a : String, a ≠ "" → startsWithBearer a = false →
      select_auth_token (some a) token access_token cookies = some a)
    ∧ select_auth_token (some "") token access_token cookies
        = select_auth_token none token access_token cookies
    ∧ select_auth_token none (some "") access_token cookies
        = select_auth_token none none access_token cookies
    ∧ select_auth_token none none (some "") cookies
        = select_auth_token none none none cookies
    ∧ ∀ rest : Cookies,
        select_auth_token none none none (("auth0_token", "") :: rest) = none := by
  refine ⟨?_, ?_, rfl, rfl, rfl, fun rest => rfl⟩
  · intro a ha
    have ht : pyTruthy (some a) = true :=
      (pyTruthy_some_iff a).mpr (startsWithBearer_ne_empty a ha)
    unfold select_auth_token
    rw [ht]
    simp [ha]
  · intro a hne ha
    have ht : pyTruthy (some a) = true := (pyTruthy_some_iff a).mpr hne
    unfold select_auth_token
    rw [ht]
    simp [ha]

/-- Concrete instance of `select_auth_token_bearer_and_empty`: the
header `"Bearer tok2"` selects the token `"tok2"`. -/
theorem select_auth_token_bearer_instance :
    select_auth_token (some "Bearer tok2") none none [] = some "tok2" := by
  have h := (select_auth_token_bearer_and_empty none none []).1 "Bearer tok2" (by decide)
  rw [h]
  decide

/-- A Gmail oracle whose listing succeeds with an empty inbox. -/
def gmailApiOk : GmailCredsDict → Except PyExc MessagesResult :=
  fun _ => .ok { messages := [], nextPageToken := none, resultSizeEstimate := some 0 }

/-- Claim C2 names the intended behaviour, but the code has a slip: the
`HTTPException(401, "Gmail credentials not provided")` raised for a
missing/null `credentials` body is caught by the handler's own blanket
`except Exception` clause and re-raised as a 500 whose detail wraps
`str(e)`.  The actual response is 500, not 401; no mail-provider call is
made. -/
theorem list_messages_missing_credentials_is_500 :
    (list_messages none gmailApiOk).status = 500
    ∧ (list_messages none gmailApiOk).detail
        = some "Failed to list Gmail messages: 401: Gmail credentials not provided"
    ∧ (list_messages none gmailApiOk).providerCalled = false := by
  refine ⟨rfl, by decide, rfl⟩

/-! ## Claims about the identity-provider handshake, the token verifier
and the mail service facade -/

/-- After deleting a cookie, looking it up yields nothing. -/
theorem cookies_get_deleteKey (c : Cookies) (k : String) :
    Cookies.get (Cookies.deleteKey c k) k = none := by
  induction c with
  | nil => rfl
  | cons p rest ih =>
    obtain ⟨k', v⟩ := p
    unfold Cookies.deleteKey
    by_cases h : k' = k
    · rw [if_pos h]
      exact ih
    · rw [if_neg h]
      unfold Cookies.get
      rw [if_neg h]
      exact ih

/-- A concrete configuration used to instantiate the theorems. -/
def settingsEx : Settings :=
  { AUTH0_DOMAIN := "your-tenant.auth0.com", AUTH0_CLIENT_ID := "cid",
    AUTH0_CLIENT_SECRET := "csec", GOOGLE_CLIENT_ID := "gcid",
    GOOGLE_CLIENT_SECRET := "gsec", MICROSOFT_CLIENT_ID := "mcid",
    MICROSOFT_CLIENT_SECRET := "msec" }

/-- Claim C5: a non-empty `redirect_after_login` is stored verbatim in a
600-second HTTP-only cookie by `login`; a callback that succeeds with
that cookie present redirects to the stored value with
`?access_token=<token>` appended and deletes the cookie, so a second
callback (cookie gone) returns the raw token payload. -/
theorem login_callback_redirect_round_trip (settings : Settings) (v : String)
    (hv : v ≠ "") (code : String) (td : TokenData) (jar : Cookies)
    (hjar : jar.get "redirect_after_login" = some v) :
    (login settings (some v)).redirectCookie
      = some { value := v, max_age := 600, httponly := true }
    ∧ (auth_callback jar code (fun _ => .resp 200 td)).status = 307
    ∧ (auth_callback jar code (fun _ => .resp 200 td)).body
        = AuthCbBody.redirect (v ++ "?access_token=" ++ td.access_token)
    ∧ (auth_callback jar code (fun _ => .resp 200 td)).deletesRedirectCookie = true
    ∧ (auth_callback (jar.deleteKey "redirect_after_login") code
          (fun _ => .resp 200 td)).body
        = AuthCbBody.payload td := by
  have ht : pyTruthy (some v) = true := (pyTruthy_some_iff v).mpr hv
  refine ⟨?_, ?_, ?_, ?_, ?_⟩
  · unfold login
    rw [ht]
    rfl
  · unfold auth_callback
    rw [hjar, ht]
    rfl
  · unfold auth_callback
    rw [hjar, ht]
    rfl
  · unfold auth_callback
    rw [hjar, ht]
    rfl
  · unfold auth_callback
    rw [cookies_get_deleteKey]
    rfl

/-- Concrete instance of `login_callback_redirect_round_trip` at the
redirect target the Gmail connect flow uses. -/
theorem login_callback_redirect_round_trip_instance :
    (login settingsEx (some "http://localhost:8000/api/v1/email/google/auth")).redirectCookie
      = some { value := "http://localhost:8000/api/v1/email/google/auth",
               max_age := 600, httponly := true }
    ∧ (auth_callback
          [("redirect_after_login", "http://localhost:8000/api/v1/email/google/auth")]
          "code1" (fun _ => .resp 200 ⟨"tok9"⟩)).body
      = AuthCbBody.redirect
          "http://localhost:8000/api/v1/email/google/auth?access_token=tok9" := by
  have h := login_callback_redirect_round_trip settingsEx
    "http://localhost:8000/api/v1/email/google/auth" (by decide) "code1" ⟨"tok9"⟩
    [("redirect_after_login", "http://localhost:8000/api/v1/email/google/auth")] rfl
  refine ⟨h.1, ?_⟩
  rw [h.2.2.1]
  decide

/-- Claim C6: in `auth_callback`, a non-success HTTP status from the
identity provider and a transport exception both surface as the same
error kind — an `HTTPException` with status 400 and an error detail. -/
theorem auth_callback_upstream_errors (jar : Cookies) (code : String) :
    (∀ m : String,
      (auth_callback jar code (fun _ => .exc m)).status = 400
      ∧ ∃ d, (auth_callback jar code (fun _ => .exc m)).body
          = AuthCbBody.errorDetail d)
    ∧ ∀ st : Nat, ∀ td : TokenData, st ≠ 200 →
      (auth_callback jar code (fun _ => .resp st td)).status = 400
      ∧ ∃ d, (auth_callback jar code (fun _ => .resp st td)).body
          = AuthCbBody.errorDetail d := by
  constructor
  · intro m
    exact ⟨rfl, _, rfl⟩
  · intro st td h
    simp only [auth_callback]
    rw [if_pos h]
    exact ⟨rfl, _, rfl⟩

/-- Concrete instance of `auth_callback_upstream_errors`: a 500 from the
token endpoint yields a 400 response. -/
theorem auth_callback_upstream_errors_instance :
    (auth_callback [] "code2" (fun _ => .resp 500 ⟨"t0"⟩)).status = 400 :=
  ((auth_callback_upstream_errors [] "code2").2 500 ⟨"t0"⟩ (by decide)).1

/-- Claim C7: any provider other than `"gmail"` and `"outlook"` makes
`get_email_service` raise 400 "Unsupported email provider", so each of
the three bearer-authenticated email endpoints fails with that 400
before invoking any service operation. -/
theorem get_email_service_unsupported (settings : Settings) (provider : String)
    (h1 : provider ≠ "gmail") (h2 : provider ≠ "outlook")
    (email_data : EmailRequest) (email_id : String) (user : UserIdentity) :
    get_email_service settings provider
      = .error { status := 400, detail := "Unsupported email provider" }
    ∧ (get_unread_emails_endpoint settings provider user).result
        = .error { status := 400, detail := "Unsupported email provider" }
    ∧ (get_unread_emails_endpoint settings provider user).serviceOpInvoked = false
    ∧ (send_email_endpoint settings provider email_data user).result
        = .error { status := 400, detail := "Unsupported email provider" }
    ∧ (send_email_endpoint settings provider email_data user).serviceOpInvoked = false
    ∧ (mark_email_as_read_endpoint settings email_id provider user).result
        = .error { status := 400, detail := "Unsupported email provider" }
    ∧ (mark_email_as_read_endpoint settings email_id provider user).serviceOpInvoked
        = false := by
  have hsvc : get_email_service settings provider
      = .error { status := 400, detail := "Unsupported email provider" } := by
    unfold get_email_service
    rw [if_neg h1, if_neg h2]
  refine ⟨hsvc, ?_, ?_, ?_, ?_, ?_, ?_⟩ <;>
    simp [get_unread_emails_endpoint, send_email_endpoint,
      mark_email_as_read_endpoint, hsvc]

/-- Concrete instance of `get_email_service_unsupported` at provider
`"yahoo"`. -/
theorem get_email_service_unsupported_instance :
    get_email_service settingsEx "yahoo"
      = .error { status := 400, detail := "Unsupported email provider" } :=
  (get_email_service_unsupported settingsEx "yahoo" (by decide) (by decide)
    ⟨"a@b.c", "subj", "body"⟩ "id1" ⟨"sub1", "e@x.y", "Name"⟩).1

/-- Claim C8: with the placeholder domain `"your-tenant.auth0.com"`,
`get_current_user` returns the fixed mock identity for any bearer token
without contacting the identity provider, so the authenticated identity
is independent of the presented token. -/
theorem get_current_user_mock_independent (settings : Settings)
    (h : settings.AUTH0_DOMAIN = "your-tenant.auth0.com")
    (t1 t2 : String) (userinfo1 userinfo2 : String → UserinfoResult) :
    (get_current_user settings t1 userinfo1).result
      = .ok { sub := "mock-user-id", email := "test@example.com", name := "Test User" }
    ∧ (get_current_user settings t1 userinfo1).contactedProvider = false
    ∧ get_current_user settings t1 userinfo1 = get_current_user settings t2 userinfo2 := by
  unfold get_current_user
  rw [h]
  exact ⟨rfl, rfl, rfl⟩

/-- Concrete instance of `get_current_user_mock_independent`: two
different tokens, two different userinfo oracles, same mock identity. -/
theorem get_current_user_mock_instance :
    (get_current_user settingsEx "tokenA" (fun _ => .exc "netdown")).result
      = .ok { sub := "mock-user-id", email := "test@example.com", name := "Test User" }
    ∧ get_current_user settingsEx "tokenA" (fun _ => .exc "netdown")
        = get_current_user settingsEx "tokenB" (fun _ => .resp 200 ⟨"s", "e", "n"⟩) := by
  have h := get_current_user_mock_independent settingsEx rfl "tokenA" "tokenB"
    (fun _ => .exc "netdown") (fun _ => .resp 200 ⟨"s", "e", "n"⟩)
  exact ⟨h.1, h.2.2⟩

/-- Claim C10: both stub services return `True` from `send_email` and
`mark_as_read` for every input, so for providers `"gmail"` and
`"outlook"` the 500 branches of the send and mark-read endpoints are
unreachable and every authenticated call returns the success message. -/
theorem stub_services_send_mark_succeed (settings : Settings)
    (cid csec user_id «to» subject body email_id : String)
    (email_data : EmailRequest) (user : UserIdentity) :
    (EmailServiceImpl.gmailSvc cid csec).send_email user_id «to» subject body = true
    ∧ (EmailServiceImpl.outlookSvc cid csec).send_email user_id «to» subject body = true
    ∧ (EmailServiceImpl.gmailSvc cid csec).mark_as_read user_id email_id = true
    ∧ (EmailServiceImpl.outlookSvc cid csec).mark_as_read user_id email_id = true
    ∧ (send_email_endpoint settings "gmail" email_data user).result
        = .ok "Email sent successfully"
    ∧ (send_email_endpoint settings "outlook" email_data user).result
        = .ok "Email sent successfully"
    ∧ (mark_email_as_read_endpoint settings email_id "gmail" user).result
        = .ok "Email marked as read successfully"
    ∧ (mark_email_as_read_endpoint settings email_id "outlook" user).result
        = .ok "Email marked as read successfully" :=
  ⟨rfl, rfl, rfl, rfl, rfl, rfl, rfl, rfl⟩

end EmailCat
